import Mathlib

/-!
Verification of the RapidPSv Mumbai safety-prediction service.

The development shallowly embeds the Python sources (`predictor.py`,
`data_processor.py`, `app.py`) in Lean 4:

* machine/float arithmetic is modelled over `ℚ` (exact rational arithmetic);
* `sin(π·hour/12)` is kept abstract as a parameter `sinq : ℤ → ℚ`
  (only its range `[-1, 1]` could matter to any statement here);
* Python's built-in string `hash` — which is salted per process run — is
  kept abstract as a parameter `h : String → Int`; a concrete choice of `h`
  corresponds to one process run with one hash salt;
* the Mersenne-Twister based `random.sample` used for risk factors is kept
  abstract as a parameter `sample : String → ℤ → List String` (deterministic
  within a run; its seed is derived from the salted hash);
* the geodesic distance of `geopy` is kept abstract as a parameter
  `dist : ℚ × ℚ → ℚ × ℚ → ℚ` over `(lat, lng)` pairs;
* `round(x, n)` is modelled as rounding `10^n·x` to the nearest integer
  (Python uses banker's rounding at exact ties; no statement below depends
  on the direction of a tie);
* Python `%` on integers agrees with `Int.emod` for a positive modulus.
-/

namespace RapidPSv

/-! ## Python-arithmetic helpers -/

/-- Python `round(x, 3)`: round to three decimal places. -/
def pyround3 (q : ℚ) : ℚ := (round (1000 * q) : ℤ) / 1000

/-- Python `round(x, 2)`: round to two decimal places. -/
def pyround2 (q : ℚ) : ℚ := (round (100 * q) : ℤ) / 100

/-- Python `round(x, 1)`: round to one decimal place. -/
def pyround1 (q : ℚ) : ℚ := (round (10 * q) : ℤ) / 10

/-- Python `x % 20` for `x : Int` (result in `[0, 19]`, sign of divisor). -/
def pymod20 (x : Int) : Int := x % 20

/-- Python list slicing `l[k:]` (a negative index counts from the end;
both directions clamp at the list boundaries; `l[0:]` is all of `l`). -/
def pySliceFrom (l : List α) (k : ℤ) : List α :=
  if k < 0 then l.drop (l.length + k).toNat else l.drop k.toNat

/-- Python substring test `needle in hay` on character lists. -/
def subListOf (needle : List Char) : List Char → Bool
  | [] => needle.isEmpty
  | c :: rest => needle.isPrefixOf (c :: rest) || subListOf needle rest

/-- Python `needle in hay` for strings. -/
def strContains (hay needle : String) : Bool :=
  subListOf needle.toList hay.toList

/-- Python `str.lower()` (ASCII suffices for the queries used here). -/
def pyLower (s : String) : String := String.mk (s.toList.map Char.toLower)

/-! ## Ward features (`predictor.py`, `self.wards["features"]`) -/

/-- One GeoJSON feature as used by `SafetyPredictor`: only the
`ward_id` and `name` properties are read by `predict`. -/
structure WardFeature where
  ward_id : String
  name : String
deriving DecidableEq

/-! ## `SafetyPredictor.predict` (predictor.py lines 90–174) -/

/-- The five time-pattern buckets of `predict` (`time_patterns`). -/
def time_safest : List ℤ := [10, 11, 12, 13, 14, 15]

def time_safe : List ℤ := [7, 8, 9, 16, 17, 18]

def time_moderate : List ℤ := [19, 20, 6]

def time_risky : List ℤ := [21, 22, 5]

/-- `base_safety` as computed by the `if`/`elif` chain of `predict`:
bucket offset plus `0.1 * sin(π·hour/12)` (the sine kept abstract). -/
def base_safety (sinq : ℤ → ℚ) (hour : ℤ) : ℚ :=
  if hour ∈ time_safest then 0.8 + 0.1 * sinq hour
  else if hour ∈ time_safe then 0.7 + 0.1 * sinq hour
  else if hour ∈ time_moderate then 0.5 + 0.1 * sinq hour
  else if hour ∈ time_risky then 0.3 + 0.1 * sinq hour
  else 0.2 + 0.1 * sinq hour

/-- `ward_modifier = hash(ward_id) % 20 / 100` (predictor.py line 150). -/
def ward_modifier (h : String → Int) (ward_id : String) : ℚ :=
  (pymod20 (h ward_id) : ℚ) / 100

/-- `safety_score = min(max(base_safety + ward_modifier, 0), 1)`. -/
def safety_score (h : String → Int) (sinq : ℤ → ℚ) (hour : ℤ)
    (ward_id : String) : ℚ :=
  min (max (base_safety sinq hour + ward_modifier h ward_id) 0) 1

/-- The threshold classification of `predict` (lines 154–159). -/
def safety_level_of (s : ℚ) : String :=
  if s ≥ 0.7 then "green" else if s ≥ 0.4 then "yellow" else "red"

/-- One per-ward entry of the `predict` response (lines 164–170). -/
structure WardPrediction where
  ward_id : String
  name : String
  safety_level : String
  crime_probability : ℚ
  risk_factors : List String
deriving DecidableEq

/-- The per-ward computation inside the `for feature in ...` loop of
`predict`; `sample` stands for `_get_risk_factors` (a `random.sample`
keyed by the salted `hash(f"{ward_id}_{hour}")`, deterministic within
one run). -/
def predictWard (h : String → Int) (sinq : ℤ → ℚ)
    (sample : String → ℤ → List String) (hour : ℤ)
    (f : WardFeature) : WardPrediction :=
  let s := safety_score h sinq hour f.ward_id
  { ward_id := f.ward_id
    name := f.name
    safety_level := safety_level_of s
    crime_probability := pyround3 (1 - s)
    risk_factors := sample f.ward_id hour }

/-- The full `predict` response (hour echo plus per-ward list). -/
structure PredictResult where
  hour : ℤ
  wards : List WardPrediction
deriving DecidableEq

/-- `SafetyPredictor.predict`: errors when the feature list is empty,
otherwise maps the per-ward computation over the store in order. -/
def predict (h : String → Int) (sinq : ℤ → ℚ)
    (sample : String → ℤ → List String)
    (features : List WardFeature) (hour : ℤ) :
    Except String PredictResult :=
  if features = [] then .error "No ward data available"
  else .ok { hour := hour, wards := features.map (predictWard h sinq sample hour) }

/-! ## Reference definitions taken from the spec's words (§4.2), used to
state the refinement claim C1.  They are deliberately written from the
spec, not from the source. -/

/-- Spec §4.2 base curve: five disjoint buckets with fixed offsets,
plus `0.1·sin(π·hour/12)`. -/
def spec_b (sinq : ℤ → ℚ) (hour : ℤ) : ℚ :=
  (if hour ∈ ([10, 11, 12, 13, 14, 15] : List ℤ) then (0.8 : ℚ)
   else if hour ∈ ([7, 8, 9, 16, 17, 18] : List ℤ) then 0.7
   else if hour ∈ ([19, 20, 6] : List ℤ) then 0.5
   else if hour ∈ ([21, 22, 5] : List ℤ) then 0.3
   else if hour = 23 ∨ (0 ≤ hour ∧ hour ≤ 4) then 0.2
   else 0) + 0.1 * sinq hour

/-- Spec §4.2 per-ward jitter `j(ward_id) = (hash(ward_id) mod 20)/100`. -/
def spec_j (h : String → Int) (ward_id : String) : ℚ :=
  ((h ward_id % 20 : ℤ) : ℚ) / 100

/-- Spec §4.2 final score `s = clamp(b(hour) + j(ward_id), 0, 1)`. -/
def spec_s (h : String → Int) (sinq : ℤ → ℚ) (hour : ℤ)
    (ward_id : String) : ℚ :=
  min (max (spec_b sinq hour + spec_j h ward_id) 0) 1

/-- Spec §4.2 classification: `green` iff `s ≥ 0.7`, `yellow` iff
`0.4 ≤ s < 0.7`, `red` otherwise. -/
def spec_category (s : ℚ) : String :=
  if s ≥ 0.7 then "green"
  else if 0.4 ≤ s ∧ s < 0.7 then "yellow"
  else "red"

/-- Spec §4.2/§8 dominant category: highest count, ties broken by the
preference order green > yellow > red (green wins any tie it is part
of; yellow beats red on a tie). -/
def spec_dominant (g y r : ℕ) : String :=
  if g ≥ y ∧ g ≥ r then "green"
  else if y ≥ r then "yellow"
  else "red"

/-! ## Historical data (`_generate_historical_data`,
`get_historical_safety_data`, predictor.py lines 212–344) -/

/-- One entry of `hourly_data`. -/
structure HourEntry where
  hour : ℕ
  safety_level : String
  crime_probability : ℚ
deriving DecidableEq

/-- One entry of `daily_data`. -/
structure DayEntry where
  date : String
  weekday : String
  hourly_data : List HourEntry
deriving DecidableEq

/-- The `hour_factor` table of `_generate_historical_data`
(lines 233–247; same buckets as `predict`, without the sine term). -/
def hour_factor (hour : ℕ) : ℚ :=
  if hour ∈ ([10, 11, 12, 13, 14, 15] : List ℕ) then 0.8
  else if hour ∈ ([7, 8, 9, 16, 17, 18] : List ℕ) then 0.7
  else if hour ∈ ([19, 20, 6] : List ℕ) then 0.5
  else if hour ∈ ([21, 22, 5] : List ℕ) then 0.3
  else 0.2

/-- One hourly record of the generator: `day_factor` is
`hash(f"{date.weekday()}_{ward_id}") % 20 / 100` (line 230), the score is
clamped and classified exactly as in `predict`. -/
def genHourEntry (h : String → Int) (ward_id : String) (wd : ℤ)
    (hour : ℕ) : HourEntry :=
  let day_factor : ℚ := (pymod20 (h (toString wd ++ "_" ++ ward_id)) : ℚ) / 100
  let s := min (max (hour_factor hour + day_factor) 0) 1
  { hour := hour
    safety_level := safety_level_of s
    crime_probability := pyround3 (1 - s) }

/-- One daily record of the generator (24 hourly entries, hours 0–23). -/
def genDay (h : String → Int) (ward_id : String)
    (dateStr weekdayName : String) (wd : ℤ) : DayEntry :=
  { date := dateStr
    weekday := weekdayName
    hourly_data := (List.range 24).map (genHourEntry h ward_id wd) }

/-- `_generate_historical_data`: 30 daily records per ward.  The dates
(`today - day_offset`) are abstracted as a function from the loop index
(0 = oldest day) to `(date string, weekday name, weekday number)`. -/
def generate_historical_data (h : String → Int)
    (dates : ℕ → String × String × ℤ) (wards : List String) :
    List (String × List DayEntry) :=
  wards.map fun wid =>
    (wid, (List.range 30).map fun i =>
      genDay h wid (dates i).1 (dates i).2.1 (dates i).2.2)

/-- The four fixed aggregation periods (`time_periods`, lines 298–303). -/
def morning_hours : List ℕ := [6, 7, 8, 9, 10, 11]

def afternoon_hours : List ℕ := [12, 13, 14, 15, 16, 17]

def evening_hours : List ℕ := [18, 19, 20, 21]

def night_hours : List ℕ := [22, 23, 0, 1, 2, 3, 4, 5]

def time_periods : List (String × List ℕ) :=
  [("morning", morning_hours), ("afternoon", afternoon_hours),
   ("evening", evening_hours), ("night", night_hours)]

/-- The green/yellow/red counting loop of `get_historical_safety_data`
(lines 307–318): every hourly entry whose hour lies in the period is
counted as green, yellow, or (anything else) red. -/
def countLevels (daily : List DayEntry) (hours : List ℕ) : ℕ × ℕ × ℕ :=
  daily.foldl (fun acc day =>
    day.hourly_data.foldl (fun acc hd =>
      if hd.hour ∈ hours then
        if hd.safety_level = "green" then (acc.1 + 1, acc.2.1, acc.2.2)
        else if hd.safety_level = "yellow" then (acc.1, acc.2.1 + 1, acc.2.2)
        else (acc.1, acc.2.1, acc.2.2 + 1)
      else acc) acc) (0, 0, 0)

/-- The total of a (green, yellow, red) counting triple. -/
def triSum (c : ℕ × ℕ × ℕ) : ℕ := c.1 + c.2.1 + c.2.2

/-- The dominant-category selection chain (lines 321–329): returns the
dominant label together with its count. -/
def dominant_of (g y r : ℕ) : String × ℕ :=
  if g ≥ y ∧ g ≥ r then ("green", g)
  else if y ≥ g ∧ y ≥ r then ("yellow", y)
  else ("red", r)

/-- One period's aggregate statistics. -/
structure PeriodStat where
  period : String
  dominant_safety : String
  dominant_percentage : ℚ
  green_pct : ℚ
  yellow_pct : ℚ
  red_pct : ℚ
deriving DecidableEq

/-- The statistics record built for one period when `total_hours ≠ 0`
(lines 320–337). -/
def periodStatOk (name : String) (hours : List ℕ) (daily : List DayEntry)
    (days : ℤ) : PeriodStat :=
  let c := countLevels daily hours
  let total : ℤ := (hours.length : ℤ) * days
  let dom := dominant_of c.1 c.2.1 c.2.2
  { period := name
    dominant_safety := dom.1
    dominant_percentage := pyround1 ((dom.2 : ℚ) / (total : ℚ) * 100)
    green_pct := pyround1 ((c.1 : ℚ) / (total : ℚ) * 100)
    yellow_pct := pyround1 ((c.2.1 : ℚ) / (total : ℚ) * 100)
    red_pct := pyround1 ((c.2.2 : ℚ) / (total : ℚ) * 100) }

/-- One period's statistics (lines 306–337).  `total_hours =
len(hours) * days`; when it is zero the percentage computation raises
`ZeroDivisionError` in Python, modelled as an error result. -/
def mkPeriodStat (name : String) (hours : List ℕ) (daily : List DayEntry)
    (days : ℤ) : Except String PeriodStat :=
  if ((hours.length : ℤ) * days) = 0 then .error "ZeroDivisionError"
  else .ok (periodStatOk name hours daily days)

/-- The `for period, hours in time_periods.items()` loop, in iteration
order; the first zero division aborts the call. -/
def periodStatsE (daily : List DayEntry) (days : ℤ) :
    Except String (List PeriodStat) :=
  match mkPeriodStat "morning" morning_hours daily days with
  | .error e => .error e
  | .ok a =>
    match mkPeriodStat "afternoon" afternoon_hours daily days with
    | .error e => .error e
    | .ok b =>
      match mkPeriodStat "evening" evening_hours daily days with
      | .error e => .error e
      | .ok c =>
        match mkPeriodStat "night" night_hours daily days with
        | .error e => .error e
        | .ok d => .ok [a, b, c, d]

/-- The full response of `get_historical_safety_data`. -/
structure HistoricalResult where
  ward_id : String
  days_analyzed : ℤ
  daily_data : List DayEntry
  period_stats : List PeriodStat
deriving DecidableEq

/-- `SafetyPredictor.get_historical_safety_data` (lines 279–344):
clamps `days` to 30, rejects unknown wards, slices the last `days`
entries (Python `[-days:]`), and aggregates the four period statistics. -/
def get_historical_safety_data (store : List (String × List DayEntry))
    (ward_id : String) (days0 : ℤ) : Except String HistoricalResult :=
  let days := min days0 30
  match store.lookup ward_id with
  | none => .error ("No historical data for ward " ++ ward_id)
  | some hist =>
    let daily := pySliceFrom hist (-days)
    match periodStatsE daily days with
    | .error e => .error e
    | .ok stats =>
      .ok { ward_id := ward_id
            days_analyzed := days
            daily_data := daily
            period_stats := stats }

/-! ## The `/api/predict` route (app.py lines 67–80) -/

/-- An HTTP error response (`status`, json `error` message). -/
structure ApiError where
  status : ℕ
  message : String
deriving DecidableEq

/-- The `/api/predict` handler for an integer `hour` argument: rejects
out-of-range hours with HTTP 400 before calling the predictor. -/
def predict_route (h : String → Int) (sinq : ℤ → ℚ)
    (sample : String → ℤ → List String)
    (features : List WardFeature) (hour : ℤ) :
    Except ApiError (Except String PredictResult) :=
  if hour < 0 ∨ hour > 23 then
    .error ⟨400, "Hour must be between 0 and 23"⟩
  else
    .ok (predict h sinq sample features hour)

/-! ## `DataProcessor` geometry (data_processor.py lines 271–396) -/

/-- One GeoJSON feature as used by `DataProcessor`: `ward_id`, `name`
and the `coordinates` member of a Polygon geometry (a list of rings,
each ring a list of coordinate lists, ordered `[lng, lat, ...]`). -/
structure GeoFeature where
  ward_id : String
  name : String
  rings : List (List (List ℚ))
deriving DecidableEq

/-- The centroid computation of `map_coordinates_to_ward` (lines
297–317): take ring 0 (an `IndexError` on a missing ring is caught and
skips the feature), keep coordinates of length ≥ 2, average latitudes
(`coord[1]`) and longitudes (`coord[0]`); skip if either list is empty. -/
def centroidOf (f : GeoFeature) : Option (ℚ × ℚ) :=
  match f.rings with
  | [] => none
  | ring :: _ =>
    if ring = [] then none
    else
      let pts := ring.filter (fun c => 2 ≤ c.length)
      let lats := pts.map (fun c => c.getD 1 0)
      let longs := pts.map (fun c => c.getD 0 0)
      if lats ≠ [] ∧ longs ≠ [] then
        some (lats.sum / (lats.length : ℚ), longs.sum / (longs.length : ℚ))
      else none

/-- The nearest-ward record built inside the loop (lines 311–317). -/
structure WardMatch where
  ward_id : String
  name : String
  distance_km : ℚ
  latitude : ℚ
  longitude : ℚ
deriving DecidableEq

/-- The update test of the loop: `distance < min_distance`, where
`min_distance` starts at `float('inf')` (modelled as `none`). -/
def isBetter (d : ℚ) : Option ℚ → Bool
  | none => true
  | some m => decide (d < m)

/-- The `for feature in ...` loop of `map_coordinates_to_ward`:
the accumulator holds `nearest_ward` and `min_distance`, replaced
whenever a strictly smaller distance is found. -/
def nearestLoop (dist : ℚ × ℚ → ℚ × ℚ → ℚ) (q : ℚ × ℚ) :
    List GeoFeature → Option WardMatch → Option ℚ →
    Option WardMatch × Option ℚ
  | [], best, mind => (best, mind)
  | f :: rest, best, mind =>
    match centroidOf f with
    | none => nearestLoop dist q rest best mind
    | some c =>
      let d := dist q c
      if isBetter d mind then
        nearestLoop dist q rest
          (some { ward_id := f.ward_id, name := f.name,
                  distance_km := pyround2 d,
                  latitude := c.1, longitude := c.2 }) (some d)
      else nearestLoop dist q rest best mind

/-- `DataProcessor.map_coordinates_to_ward` (lines 271–325): nearest
ward centroid by great-circle distance, `none` beyond 30 km. -/
def map_coordinates_to_ward (dist : ℚ × ℚ → ℚ × ℚ → ℚ)
    (features : List GeoFeature) (lat lng : ℚ) : Option WardMatch :=
  match nearestLoop dist (lat, lng) features none none with
  | (some w, some m) => if m ≤ 30 then some w else none
  | _ => none

/-- The outcome of the external `geolocator.geocode` call. -/
inductive GeoOutcome where
  | failure
  | notFound
  | found (lat lng : ℚ) (address : String)
deriving DecidableEq

/-- Mumbai city center (19.0760, 72.8777). -/
def mumbai_center : ℚ × ℚ := (19.0760, 72.8777)

/-- The response of `map_search_query_to_ward`. -/
structure SearchMatch where
  ward_id : String
  name : String
  distance_km : ℚ
  latitude : ℚ
  longitude : ℚ
  search_query : String
  matched_location : String
  search_lat : ℚ
  search_lng : ℚ
deriving DecidableEq

/-- `DataProcessor.map_search_query_to_ward` (lines 327–396).  `geo` is
the external geocoder (`failure` = raised/timed out, caught by the
`except` branch).  On failure with a non-empty ward store the code
builds a fabricated match from a `random.choice` ward (index `ridx`)
and `random.uniform` draws `d0, lat0, lng0, slat0, slng0`. -/
def map_search_query_to_ward (dist : ℚ × ℚ → ℚ × ℚ → ℚ)
    (features : List GeoFeature) (geo : String → GeoOutcome)
    (ridx : ℕ) (d0 lat0 lng0 slat0 slng0 : ℚ)
    (query : String) : Option SearchMatch :=
  let q := if strContains (pyLower query) "mumbai" then query
           else query ++ ", Mumbai, India"
  match geo q with
  | .notFound => none
  | .found lat lng addr =>
    if dist mumbai_center (lat, lng) ≤ 30 then
      match map_coordinates_to_ward dist features lat lng with
      | some wm =>
        some { ward_id := wm.ward_id, name := wm.name,
               distance_km := wm.distance_km,
               latitude := wm.latitude, longitude := wm.longitude,
               search_query := q, matched_location := addr,
               search_lat := lat, search_lng := lng }
      | none => none
    else none
  | .failure =>
    if features = [] then none
    else
      match features.get? (ridx % features.length) with
      | none => none
      | some f =>
        some { ward_id := f.ward_id, name := f.name,
               distance_km := pyround2 d0,
               search_query := q,
               matched_location := "Near " ++ f.name ++ ", Mumbai, India",
               latitude := mumbai_center.1 + lat0,
               longitude := mumbai_center.2 + lng0,
               search_lat := mumbai_center.1 + slat0,
               search_lng := mumbai_center.2 + slng0 }

/-! ## `SafetyPredictor.get_safety_tips` (predictor.py lines 436–581) -/

/-- The four fixed general tips (lines 466–471). -/
def general_tips : List String :=
  ["Stay aware of your surroundings at all times",
   "Keep emergency contacts readily available",
   "Share your location with trusted contacts when traveling",
   "Stay in well-lit and populated areas when possible"]

/-- The category-level tip pools (`level_tips`, lines 474–493);
`.get(level, [])` yields `[]` for unknown keys. -/
def level_tips (lvl : String) : List String :=
  if lvl = "green" then
    ["This area is generally safe, but basic precautions are still recommended",
     "Normal vigilance is sufficient in this area",
     "Enjoy your activities while maintaining standard awareness"]
  else if lvl = "yellow" then
    ["Moderate caution is advised in this area",
     "Avoid walking alone at night if possible",
     "Keep valuables concealed and secure",
     "Stay in well-lit and populated areas"]
  else if lvl = "red" then
    ["Extra vigilance is strongly recommended",
     "Avoid traveling alone, especially after dark",
     "Consider alternative routes or transportation",
     "Keep in constant contact with someone who knows your whereabouts",
     "Avoid displaying valuable items in public"]
  else []

/-- The per-risk-factor tip pools (`factor_tips`, lines 496–537);
factors without an entry contribute nothing. -/
def factor_tips (factor : String) : List String :=
  if factor = "Poorly lit areas" then
    ["Use a flashlight or phone light in dark areas",
     "Stick to main roads with proper lighting",
     "Travel in groups when possible"]
  else if factor = "High pedestrian traffic" then
    ["Keep your wallet/purse secure and close to your body",
     "Be aware of pickpockets in crowded areas",
     "Avoid distractions like using phone in very crowded places"]
  else if factor = "Proximity to transit hubs" then
    ["Be extra vigilant around bus and train stations",
     "Secure your luggage and personal belongings",
     "Pre-plan your route to minimize waiting time"]
  else if factor = "Entertainment venues" then
    ["Consume alcohol responsibly if visiting bars/clubs",
     "Never leave drinks unattended",
     "Plan your return transportation in advance"]
  else if factor = "Commercial activity" then
    ["Keep shopping bags close and monitored",
     "Avoid displaying large amounts of cash",
     "Be cautious in market areas with dense crowds"]
  else if factor = "Residential density" then
    ["Check if your building has functioning security measures",
     "Lock doors and windows properly",
     "Be aware of your neighbors and report suspicious activity"]
  else if factor = "Previous incidents" then
    ["Check local news for recent crime patterns in this area",
     "Avoid areas with repeated criminal activity",
     "Follow police advisories for this location"]
  else if factor = "School/college proximity" then
    ["Be alert during opening and closing hours when crowds gather",
     "Watch for traffic congestion during school rush hours",
     "Report suspicious individuals loitering near educational institutions"]
  else []

/-- The time-of-day tips (lines 548–572). -/
def time_tips_of (hour : ℤ) : List String :=
  if 0 ≤ hour ∧ hour < 6 then
    ["Consider using private transportation rather than walking",
     "Inform someone of your expected arrival time",
     "Avoid poorly lit shortcuts"]
  else if 6 ≤ hour ∧ hour < 12 then
    ["Morning rush hour may create opportunities for pickpockets",
     "Be cautious at ATMs during early banking hours",
     "Watch for traffic congestion around schools and offices"]
  else if 12 ≤ hour ∧ hour < 18 then
    ["Be cautious in crowded shopping areas during peak hours",
     "Stay hydrated and watch for heat-related health issues",
     "Be alert for potential scams in tourist areas"]
  else
    ["Prefer well-traveled routes after sunset",
     "Keep your phone charged for emergencies",
     "Avoid displaying valuable electronics in public"]

/-- The response of `get_safety_tips`. -/
structure TipsResult where
  ward_id : String
  ward_name : String
  safety_level : String
  general_tips : List String
  specific_tips : List String
  time_tips : List String
deriving DecidableEq

/-- The tips composition from a `predict` result: find the ward's entry
(an error result has no `wards` key, so the search comes up empty and
yields the no-data error), then compose general, category-level,
factor-specific and time-of-day tips. -/
def tips_of (res : Except String PredictResult) (ward_id : String)
    (hour : ℤ) : Except String TipsResult :=
  let wards := match res with
    | .error _ => []
    | .ok r => r.wards
  match wards.find? (fun w => w.ward_id == ward_id) with
  | none => .error ("No data available for ward " ++ ward_id)
  | some wd =>
    .ok { ward_id := ward_id
          ward_name := wd.name
          safety_level := wd.safety_level
          general_tips := general_tips
          specific_tips :=
            wd.risk_factors.foldl (fun acc f => acc ++ factor_tips f)
              (level_tips wd.safety_level)
          time_tips := time_tips_of hour }

/-- `SafetyPredictor.get_safety_tips` with an explicit hour. -/
def get_safety_tips (h : String → Int) (sinq : ℤ → ℚ)
    (sample : String → ℤ → List String) (features : List WardFeature)
    (ward_id : String) (hour : ℤ) : Except String TipsResult :=
  tips_of (predict h sinq sample features hour) ward_id hour

/-! ## The predictor's mutable state and its public operations
(for the frame claim C9) -/

/-- The `SafetyPredictor` instance state after startup initialization:
the ward feature collection, the 30-day historical series, and the
three model flags. -/
structure PredictorState where
  features : List WardFeature
  historical : List (String × List DayEntry)
  model : Bool
  rf : Bool
  gb : Bool

/-- `predict` as a state transformer: `if not self.model:
self._load_model()` sets `self.model = True`; nothing else is written. -/
def predictOp (h : String → Int) (sinq : ℤ → ℚ)
    (sample : String → ℤ → List String) (st : PredictorState)
    (hour : ℤ) : Except String PredictResult × PredictorState :=
  let st1 := if st.model then st else { st with model := true }
  (predict h sinq sample st1.features hour, st1)

/-- `get_historical_safety_data` as a state transformer (pure read). -/
def get_historicalOp (st : PredictorState) (ward_id : String)
    (days0 : ℤ) : Except String HistoricalResult × PredictorState :=
  (get_historical_safety_data st.historical ward_id days0, st)

/-- One entry of the `predict_future_risk` response. -/
structure FuturePred where
  hour : ℤ
  safety_level : String
  probability : ℚ
  risk_factors : List String

/-- `predict_future_risk` as a state transformer (predictor.py lines
346–434): fails when the models are unavailable or the ward is unknown;
otherwise classifies each future hour with the ensemble (kept abstract:
`hourAt i` is the wall-clock hour `i` hours from now, `cls i` the argmax
class, `pr i` its probability); nothing is written to the state. -/
def predict_future_riskOp (hourAt : ℕ → ℤ) (cls : ℕ → ℕ) (pr : ℕ → ℚ)
    (sample : String → ℤ → List String) (st : PredictorState)
    (ward_id : String) (future_hours : ℕ) :
    Except String (List FuturePred) × PredictorState :=
  if st.rf = false ∨ st.gb = false then
    (.error "Prediction models not available", st)
  else
    match st.features.find? (fun f => f.ward_id == ward_id) with
    | none => (.error ("Ward " ++ ward_id ++ " not found"), st)
    | some _ =>
      (.ok ((List.range future_hours).map fun i =>
        { hour := hourAt i
          safety_level :=
            if cls i = 0 then "green"
            else if cls i = 1 then "yellow" else "red"
          probability := pyround3 (pr i)
          risk_factors := sample ward_id (hourAt i) }), st)

/-- `get_safety_tips` as a state transformer: it calls `self.predict`,
which may set the model flag; nothing else is written. -/
def get_safety_tipsOp (h : String → Int) (sinq : ℤ → ℚ)
    (sample : String → ℤ → List String) (st : PredictorState)
    (ward_id : String) (hour : ℤ) :
    Except String TipsResult × PredictorState :=
  let p := predictOp h sinq sample st hour
  (tips_of p.1 ward_id hour, p.2)

/-! ## Concrete instantiations shared by witnesses and counterexamples -/

/-- A concrete hash function, standing for one process run's salted hash. -/
def whash : String → Int := fun _ => 3

/-- A concrete value for the abstract sine term. -/
def wsin : ℤ → ℚ := fun _ => 0

/-- A concrete value for the abstract risk-factor sampler. -/
def wsample : String → ℤ → List String := fun _ _ => ["Poorly lit areas"]

/-- A one-ward store. -/
def wfeatures : List WardFeature := [⟨"W01", "Ward 1"⟩]

/-- The per-ward prediction of the one-ward store at hour 12. -/
def wpred : WardPrediction := predictWard whash wsin wsample 12 ⟨"W01", "Ward 1"⟩

/-- A concrete startup-generated historical store for one ward
(constant date metadata). -/
def wgen : List (String × List DayEntry) :=
  generate_historical_data whash (fun _ => ("2026-01-01", "Thursday", 3)) ["W01"]

/-- The historical series of ward `"W01"` in `wgen`. -/
def wgenHist : List DayEntry :=
  (List.range 30).map fun _ => genDay whash "W01" "2026-01-01" "Thursday" 3

/-- The `get_historical_safety_data` result on `wgen` at 7 days. -/
def wr7 : HistoricalResult :=
  match get_historical_safety_data wgen "W01" 7 with
  | .ok r => r
  | .error _ => ⟨"", 0, [], []⟩

/-- The morning-period statistics entry of `wr7`. -/
def wstM : PeriodStat := periodStatOk "morning" morning_hours wr7.daily_data 7

/-- A one-ward geometric store (a square around (19.0, 72.8)). -/
def wgeo : List GeoFeature :=
  [⟨"W01", "Ward 1",
    [[[72.7, 18.9], [72.9, 18.9], [72.9, 19.1], [72.7, 19.1]]]⟩]

/-- A concrete distance function for witnesses: 0 between equal points,
100 otherwise (satisfies `dist p p = 0` and nonnegativity). -/
def wdist : ℚ × ℚ → ℚ × ℚ → ℚ := fun p q => if p = q then 0 else 100

/-! # Proofs -/

/-! ## Arithmetic helper lemmas -/

lemma round_rat_mono {x y : ℚ} (hxy : x ≤ y) : round x ≤ round y := by
  rw [round_eq, round_eq]
  exact Int.floor_mono (by linarith)

lemma pyround3_mono {x y : ℚ} (hxy : x ≤ y) : pyround3 x ≤ pyround3 y := by
  unfold pyround3
  have h := round_rat_mono (x := 1000 * x) (y := 1000 * y) (by linarith)
  have h2 : ((round (1000 * x) : ℤ) : ℚ) ≤ ((round (1000 * y) : ℤ) : ℚ) :=
    Int.cast_le.mpr h
  linarith

lemma pyround3_zero : pyround3 0 = 0 := by
  simp [pyround3]

lemma pyround3_one : pyround3 1 = 1 := by
  norm_num [pyround3]

lemma pyround3_unit {q : ℚ} (h0 : 0 ≤ q) (h1 : q ≤ 1) :
    0 ≤ pyround3 q ∧ pyround3 q ≤ 1 :=
  ⟨pyround3_zero ▸ pyround3_mono h0, pyround3_one ▸ pyround3_mono h1⟩

lemma pyround1_mono {x y : ℚ} (hxy : x ≤ y) : pyround1 x ≤ pyround1 y := by
  unfold pyround1
  have h := round_rat_mono (x := 10 * x) (y := 10 * y) (by linarith)
  have h2 : ((round (10 * x) : ℤ) : ℚ) ≤ ((round (10 * y) : ℤ) : ℚ) :=
    Int.cast_le.mpr h
  linarith

lemma abs_pyround1_sub (x : ℚ) : |pyround1 x - x| ≤ 1 / 20 := by
  unfold pyround1
  have h := abs_sub_round (10 * x)
  rw [abs_sub_comm] at h
  rw [abs_le] at h ⊢
  constructor <;> [linarith [h.1]; linarith [h.2]]

lemma pymod20_nonneg (x : ℤ) : 0 ≤ pymod20 x :=
  Int.emod_nonneg x (by norm_num)

lemma pymod20_le (x : ℤ) : pymod20 x ≤ 19 := by
  have := Int.emod_lt_of_pos x (show (0:ℤ) < 20 by norm_num)
  unfold pymod20
  omega

/-! ## C1 helper lemmas: code definitions agree with the spec reference -/

lemma base_safety_eq_spec_b (sinq : ℤ → ℚ) {hour : ℤ}
    (h0 : 0 ≤ hour) (h1 : hour ≤ 23) :
    base_safety sinq hour = spec_b sinq hour := by
  interval_cases hour <;> rfl

lemma safety_level_of_eq_spec (s : ℚ) : safety_level_of s = spec_category s := by
  unfold safety_level_of spec_category
  by_cases h1 : s ≥ 0.7
  · rw [if_pos h1, if_pos h1]
  · rw [if_neg h1, if_neg h1]
    by_cases h2 : s ≥ 0.4
    · rw [if_pos h2, if_pos ⟨h2, lt_of_not_ge h1⟩]
    · rw [if_neg h2, if_neg (fun hc => h2 hc.1)]

lemma safety_score_eq_spec_s (h : String → Int) (sinq : ℤ → ℚ) {hour : ℤ}
    (h0 : 0 ≤ hour) (h1 : hour ≤ 23) (wid : String) :
    safety_score h sinq hour wid = spec_s h sinq hour wid := by
  unfold safety_score spec_s ward_modifier spec_j pymod20
  rw [show base_safety sinq hour = spec_b sinq hour from
        base_safety_eq_spec_b sinq h0 h1]

lemma spec_s_nonneg (h : String → Int) (sinq : ℤ → ℚ) (hour : ℤ)
    (wid : String) : 0 ≤ spec_s h sinq hour wid :=
  le_min (le_max_right _ _) zero_le_one

lemma spec_s_le_one (h : String → Int) (sinq : ℤ → ℚ) (hour : ℤ)
    (wid : String) : spec_s h sinq hour wid ≤ 1 :=
  min_le_right _ _

lemma spec_j_nonneg (h : String → Int) (wid : String) : 0 ≤ spec_j h wid := by
  unfold spec_j
  have h0 : (0:ℤ) ≤ h wid % 20 := Int.emod_nonneg _ (by norm_num)
  have : (0:ℚ) ≤ ((h wid % 20 : ℤ) : ℚ) := by exact_mod_cast h0
  linarith

lemma spec_j_le (h : String → Int) (wid : String) : spec_j h wid ≤ 19 / 100 := by
  unfold spec_j
  have h1 : h wid % 20 ≤ 19 := pymod20_le (h wid)
  have : ((h wid % 20 : ℤ) : ℚ) ≤ 19 := by exact_mod_cast h1
  linarith

lemma predictWard_matches (h : String → Int) (sinq : ℤ → ℚ)
    (sample : String → ℤ → List String) {hour : ℤ}
    (h0 : 0 ≤ hour) (h1 : hour ≤ 23) (f : WardFeature) :
    (predictWard h sinq sample hour f).safety_level
        = spec_category (spec_s h sinq hour (predictWard h sinq sample hour f).ward_id) ∧
    (predictWard h sinq sample hour f).crime_probability
        = pyround3 (1 - spec_s h sinq hour (predictWard h sinq sample hour f).ward_id) ∧
    0 ≤ spec_j h (predictWard h sinq sample hour f).ward_id ∧
    spec_j h (predictWard h sinq sample hour f).ward_id ≤ 19 / 100 ∧
    0 ≤ (predictWard h sinq sample hour f).crime_probability ∧
    (predictWard h sinq sample hour f).crime_probability ≤ 1 := by
  have hwid : (predictWard h sinq sample hour f).ward_id = f.ward_id := rfl
  have hlev : (predictWard h sinq sample hour f).safety_level
      = safety_level_of (safety_score h sinq hour f.ward_id) := rfl
  have hcp : (predictWard h sinq sample hour f).crime_probability
      = pyround3 (1 - safety_score h sinq hour f.ward_id) := rfl
  have hs := safety_score_eq_spec_s h sinq h0 h1 f.ward_id
  have hb0 := spec_s_nonneg h sinq hour f.ward_id
  have hb1 := spec_s_le_one h sinq hour f.ward_id
  have hcb := pyround3_unit (q := 1 - spec_s h sinq hour f.ward_id)
    (by linarith) (by linarith)
  refine ⟨?_, ?_, ?_, ?_, ?_, ?_⟩
  · rw [hlev, hwid, hs, safety_level_of_eq_spec]
  · rw [hcp, hwid, hs]
  · rw [hwid]; exact spec_j_nonneg h f.ward_id
  · rw [hwid]; exact spec_j_le h f.ward_id
  · rw [hcp, hs]; exact hcb.1
  · rw [hcp, hs]; exact hcb.2

/-- C1: for every hour in [0,23] and every per-ward entry of `predict(hour)`,
the entry equals the reference definition from the spec: the base value is
the bucket offset plus `0.1·sin(π·hour/12)`, the jitter
`j = (hash(ward_id) mod 20)/100` lies in `[0, 0.19]`, the score is
`clamp(b + j, 0, 1)`, the category follows the green/yellow/red thresholds,
and `crime_probability = round(1 - s, 3)` lies in `[0, 1]`. -/
theorem C1_predict_per_ward_matches_reference (h : String → Int)
    (sinq : ℤ → ℚ) (sample : String → ℤ → List String)
    (features : List WardFeature) (hour : ℤ) (res : PredictResult)
    (h0 : 0 ≤ hour) (h1 : hour ≤ 23)
    (hres : predict h sinq sample features hour = .ok res)
    (p : WardPrediction) (hp : p ∈ res.wards) :
    p.safety_level = spec_category (spec_s h sinq hour p.ward_id) ∧
    p.crime_probability = pyround3 (1 - spec_s h sinq hour p.ward_id) ∧
    0 ≤ spec_j h p.ward_id ∧ spec_j h p.ward_id ≤ 19 / 100 ∧
    0 ≤ p.crime_probability ∧ p.crime_probability ≤ 1 := by
  unfold predict at hres
  by_cases hf : features = []
  · rw [if_pos hf] at hres
    exact absurd hres (by simp)
  · rw [if_neg hf] at hres
    cases hres
    obtain ⟨f, _, rfl⟩ := List.mem_map.mp hp
    exact predictWard_matches h sinq sample h0 h1 f

/-- Witness for C1 at hour 12 on a one-ward store. -/
theorem C1_witness :
    ((0:ℤ) ≤ 12 ∧ (12:ℤ) ≤ 23 ∧
      predict whash wsin wsample wfeatures 12 = .ok ⟨12, [wpred]⟩ ∧
      wpred ∈ ([wpred] : List WardPrediction)) ∧
    (wpred.safety_level = spec_category (spec_s whash wsin 12 wpred.ward_id) ∧
     wpred.crime_probability = pyround3 (1 - spec_s whash wsin 12 wpred.ward_id) ∧
     0 ≤ spec_j whash wpred.ward_id ∧ spec_j whash wpred.ward_id ≤ 19 / 100 ∧
     0 ≤ wpred.crime_probability ∧ wpred.crime_probability ≤ 1) :=
  ⟨⟨by norm_num, by norm_num, rfl, List.mem_singleton.mpr rfl⟩,
    C1_predict_per_ward_matches_reference whash wsin wsample wfeatures 12
      ⟨12, [wpred]⟩ (by norm_num) (by norm_num) rfl wpred
      (List.mem_singleton.mpr rfl)⟩

/-- C2: `predict` derives the per-ward jitter from Python's built-in string
`hash`, which is salted per process run; two runs whose salted hashes map
`"W01"` to 0 and to 10 return different predictions for the same hour, so
`predict` is not idempotent across process runs as the claim requires.
(Within one run — one fixed hash function — the embedding is a pure
function, so repeated calls trivially agree.) -/
theorem C2_salted_hash_breaks_cross_run_determinism :
    predict (fun _ => 0) wsin wsample wfeatures 12
      ≠ predict (fun _ => 10) wsin wsample wfeatures 12 := by
  intro heq
  have h1 : predict (fun _ => 0) wsin wsample wfeatures 12
      = .ok { hour := 12,
              wards := [predictWard (fun _ => 0) wsin wsample 12 ⟨"W01", "Ward 1"⟩] } := rfl
  have h2 : predict (fun _ => 10) wsin wsample wfeatures 12
      = .ok { hour := 12,
              wards := [predictWard (fun _ => 10) wsin wsample 12 ⟨"W01", "Ward 1"⟩] } := rfl
  rw [h1, h2] at heq
  injection heq with heq
  have h4 := congrArg PredictResult.wards heq
  simp only [List.cons.injEq, and_true] at h4
  have h5 := congrArg WardPrediction.crime_probability h4
  simp only [predictWard] at h5
  norm_num [safety_score, base_safety, ward_modifier, pymod20, wsin,
    time_safest, time_safe, time_moderate, time_risky,
    pyround3, round_eq, min_def, max_def,
    show ((0:ℤ) % 20) = 0 by decide, show ((10:ℤ) % 20) = 10 by decide] at h5

/-- C4: the `/api/predict` route validates `0 ≤ hour ≤ 23`: every
out-of-range integer hour is rejected with HTTP 400 and the error
message, and no per-ward predictions are produced. -/
theorem C4_predict_route_rejects_invalid_hour (h : String → Int)
    (sinq : ℤ → ℚ) (sample : String → ℤ → List String)
    (features : List WardFeature) (hour : ℤ)
    (hbad : hour < 0 ∨ hour > 23) :
    predict_route h sinq sample features hour
      = .error ⟨400, "Hour must be between 0 and 23"⟩ := by
  unfold predict_route
  rw [if_pos hbad]

/-- Witness for C4 at hour 24. -/
theorem C4_witness :
    ((24:ℤ) < 0 ∨ (24:ℤ) > 23) ∧
    predict_route whash wsin wsample wfeatures 24
      = .error ⟨400, "Hour must be between 0 and 23"⟩ :=
  ⟨by norm_num,
   C4_predict_route_rejects_invalid_hour whash wsin wsample wfeatures 24
     (by norm_num)⟩

/-- C3 (counterexample): on a startup-generated store,
`get_historical_safety_data(ward, 0)` hits a division by zero
(`total_hours = len(hours) * 0 = 0`), because Python's `[-0:]` slice
selects the whole series rather than an empty one; the claim's
"well-defined zero-count stats, not a division error" is false. -/
theorem C3_counterexample_zero_days_divides_by_zero :
    get_historical_safety_data wgen "W01" 0 = .error "ZeroDivisionError" := by
  have hlk : wgen.lookup "W01" = some wgenHist := rfl
  have hd : min (0:ℤ) 30 = 0 := by norm_num
  have e1 : mkPeriodStat "morning" morning_hours
      (pySliceFrom wgenHist (0:ℤ)) 0 = .error "ZeroDivisionError" := by
    unfold mkPeriodStat
    rw [if_pos (by norm_num)]
  simp only [get_historical_safety_data, periodStatsE, hlk, hd, neg_zero, e1]

/-- C3 (amended): `get_historical_safety_data(ward, days)` with
`days > 30` is clamped to exactly 30 daily entries; but with `days = 0`
the slice `[-0:]` selects the entire 30-day series and the period
statistics divide by `total_hours = 0`, so the call raises
`ZeroDivisionError` instead of returning zero-count statistics. -/
theorem C3_amended_clamp_and_zero_days
    (store : List (String × List DayEntry)) (wid : String) (days0 : ℤ)
    (hist : List DayEntry) (hw : store.lookup wid = some hist)
    (hlen : hist.length = 30) :
    (days0 > 30 → ∃ r, get_historical_safety_data store wid days0 = .ok r ∧
        r.daily_data.length = 30 ∧ r.daily_data = hist) ∧
    (days0 = 0 →
        get_historical_safety_data store wid days0 = .error "ZeroDivisionError") := by
  constructor
  · intro hgt
    have hd : min days0 30 = 30 := min_eq_right (by omega)
    have hslice : pySliceFrom hist (-(30:ℤ)) = hist := by
      unfold pySliceFrom
      rw [if_pos (by norm_num)]
      simp [hlen]
    have e1 : mkPeriodStat "morning" morning_hours hist 30
        = .ok (periodStatOk "morning" morning_hours hist 30) := by
      unfold mkPeriodStat
      rw [if_neg (by norm_num [morning_hours])]
    have e2 : mkPeriodStat "afternoon" afternoon_hours hist 30
        = .ok (periodStatOk "afternoon" afternoon_hours hist 30) := by
      unfold mkPeriodStat
      rw [if_neg (by norm_num [afternoon_hours])]
    have e3 : mkPeriodStat "evening" evening_hours hist 30
        = .ok (periodStatOk "evening" evening_hours hist 30) := by
      unfold mkPeriodStat
      rw [if_neg (by norm_num [evening_hours])]
    have e4 : mkPeriodStat "night" night_hours hist 30
        = .ok (periodStatOk "night" night_hours hist 30) := by
      unfold mkPeriodStat
      rw [if_neg (by norm_num [night_hours])]
    refine ⟨{ ward_id := wid, days_analyzed := 30, daily_data := hist,
              period_stats := [periodStatOk "morning" morning_hours hist 30,
                               periodStatOk "afternoon" afternoon_hours hist 30,
                               periodStatOk "evening" evening_hours hist 30,
                               periodStatOk "night" night_hours hist 30] },
            ?_, hlen, rfl⟩
    simp only [get_historical_safety_data, periodStatsE, hw, hd, hslice,
      e1, e2, e3, e4]
  · intro h0
    subst h0
    have hd : min (0:ℤ) 30 = 0 := by norm_num
    have e1 : mkPeriodStat "morning" morning_hours
        (pySliceFrom hist (0:ℤ)) 0 = .error "ZeroDivisionError" := by
      unfold mkPeriodStat
      rw [if_pos (by norm_num)]
    simp only [get_historical_safety_data, periodStatsE, hw, hd, neg_zero, e1]

/-- Witness for the amended C3: on the generated store, 31 requested
days yield exactly the 30 stored daily entries. -/
theorem C3_witness :
    ∃ r, get_historical_safety_data wgen "W01" 31 = .ok r ∧
      r.daily_data.length = 30 ∧ r.daily_data = wgenHist :=
  (C3_amended_clamp_and_zero_days wgen "W01" 31 wgenHist rfl
    (by simp [wgenHist])).1 (by norm_num)

/-! ## C6 helper lemmas: invariants of the nearest-ward loop -/

lemma nearestLoop_min_far (dist : ℚ × ℚ → ℚ × ℚ → ℚ) (q : ℚ × ℚ)
    (l : List GeoFeature) :
    ∀ (best : Option WardMatch) (mind : Option ℚ),
      (∀ f ∈ l, ∀ c, centroidOf f = some c → 30 < dist q c) →
      (∀ m, mind = some m → 30 < m) →
      ∀ m, (nearestLoop dist q l best mind).2 = some m → 30 < m := by
  induction l with
  | nil =>
    intro best mind _ hm m hres
    simp only [nearestLoop] at hres
    exact hm m hres
  | cons f rest ih =>
    intro best mind hfar hm m hres
    cases hc : centroidOf f with
    | none =>
      simp only [nearestLoop, hc] at hres
      exact ih best mind (fun g hg => hfar g (List.mem_cons_of_mem f hg)) hm m hres
    | some c =>
      simp only [nearestLoop, hc] at hres
      have hdgt : 30 < dist q c := hfar f (List.mem_cons_self f rest) c hc
      by_cases hb : isBetter (dist q c) mind = true
      · rw [if_pos hb] at hres
        refine ih _ _ (fun g hg => hfar g (List.mem_cons_of_mem f hg)) ?_ m hres
        intro m' hm'
        injection hm' with hm'
        rw [← hm']
        exact hdgt
      · rw [if_neg hb] at hres
        exact ih best mind (fun g hg => hfar g (List.mem_cons_of_mem f hg)) hm m hres

lemma nearestLoop_some (dist : ℚ × ℚ → ℚ × ℚ → ℚ) (q : ℚ × ℚ)
    (l : List GeoFeature) :
    ∀ (b : WardMatch) (m0 : ℚ),
      ∃ w m, nearestLoop dist q l (some b) (some m0) = (some w, some m) ∧ m ≤ m0 := by
  induction l with
  | nil =>
    intro b m0
    exact ⟨b, m0, rfl, le_refl _⟩
  | cons f rest ih =>
    intro b m0
    cases hc : centroidOf f with
    | none =>
      obtain ⟨w, m, hres, hle⟩ := ih b m0
      exact ⟨w, m, by simp only [nearestLoop, hc]; exact hres, hle⟩
    | some c =>
      by_cases hb : isBetter (dist q c) (some m0) = true
      · have hdlt : dist q c < m0 := by simpa [isBetter] using hb
        obtain ⟨w, m, hres, hle⟩ := ih
          { ward_id := f.ward_id, name := f.name,
            distance_km := pyround2 (dist q c),
            latitude := c.1, longitude := c.2 } (dist q c)
        refine ⟨w, m, ?_, le_trans hle (le_of_lt hdlt)⟩
        simp only [nearestLoop, hc, if_pos hb]
        exact hres
      · obtain ⟨w, m, hres, hle⟩ := ih b m0
        refine ⟨w, m, ?_, hle⟩
        simp only [nearestLoop, hc, if_neg hb]
        exact hres

lemma nearestLoop_hits (dist : ℚ × ℚ → ℚ × ℚ → ℚ) (q : ℚ × ℚ)
    (l : List GeoFeature) :
    ∀ (best : Option WardMatch) (mind : Option ℚ),
      (∀ m0, mind = some m0 → ∃ b, best = some b) →
      ∀ f ∈ l, ∀ c, centroidOf f = some c →
      ∃ w m, nearestLoop dist q l best mind = (some w, some m) ∧ m ≤ dist q c := by
  induction l with
  | nil =>
    intro _ _ _ f hf
    exact absurd hf (List.not_mem_nil f)
  | cons g rest ih =>
    intro best mind hcouple f hf c hc
    rcases List.mem_cons.mp hf with hfg | hftail
    · subst hfg
      by_cases hb : isBetter (dist q c) mind = true
      · obtain ⟨w, m, hres, hle⟩ := nearestLoop_some dist q rest
          { ward_id := f.ward_id, name := f.name,
            distance_km := pyround2 (dist q c),
            latitude := c.1, longitude := c.2 } (dist q c)
        refine ⟨w, m, ?_, hle⟩
        simp only [nearestLoop, hc, if_pos hb]
        exact hres
      · have hmind : ∃ m0, mind = some m0 := by
          cases hmc : mind with
          | none => rw [hmc] at hb; exact absurd rfl hb
          | some m0 => exact ⟨m0, rfl⟩
        obtain ⟨m0, rfl⟩ := hmind
        have hm0le : m0 ≤ dist q c := by
          simpa [isBetter, not_lt] using hb
        obtain ⟨b, rfl⟩ := hcouple m0 rfl
        obtain ⟨w, m, hres, hle⟩ := nearestLoop_some dist q rest b m0
        refine ⟨w, m, ?_, le_trans hle hm0le⟩
        simp only [nearestLoop, hc, if_neg hb]
        exact hres
    · cases hcg : centroidOf g with
      | none =>
        obtain ⟨w, m, hres, hle⟩ := ih best mind hcouple f hftail c hc
        refine ⟨w, m, ?_, hle⟩
        simp only [nearestLoop, hcg]
        exact hres
      | some cg =>
        by_cases hb : isBetter (dist q cg) mind = true
        · obtain ⟨w, m, hres, hle⟩ := ih
            (some { ward_id := g.ward_id, name := g.name,
                    distance_km := pyround2 (dist q cg),
                    latitude := cg.1, longitude := cg.2 })
            (some (dist q cg)) (fun _ _ => ⟨_, rfl⟩) f hftail c hc
          refine ⟨w, m, ?_, hle⟩
          simp only [nearestLoop, hcg, if_pos hb]
          exact hres
        · obtain ⟨w, m, hres, hle⟩ := ih best mind hcouple f hftail c hc
          refine ⟨w, m, ?_, hle⟩
          simp only [nearestLoop, hcg, if_neg hb]
          exact hres

/-- C6: `map_coordinates_to_ward` returns `none` whenever every ward
centroid is strictly farther than 30 km from the query point (in
particular for any point far outside the city), and returns a ward for
a query point equal to some ward's centroid (distance 0). -/
theorem C6_nearest_ward_radius_and_centroid (dist : ℚ × ℚ → ℚ × ℚ → ℚ)
    (features : List GeoFeature) (lat lng : ℚ) :
    ((∀ f ∈ features, ∀ c, centroidOf f = some c → 30 < dist (lat, lng) c) →
      map_coordinates_to_ward dist features lat lng = none) ∧
    ((∃ f ∈ features, centroidOf f = some (lat, lng)) →
     dist (lat, lng) (lat, lng) = 0 →
      (map_coordinates_to_ward dist features lat lng).isSome = true) := by
  constructor
  · intro hfar
    cases hloop : nearestLoop dist (lat, lng) features none none with
    | mk b m =>
      cases b with
      | none =>
        unfold map_coordinates_to_ward
        rw [hloop]
      | some w =>
        cases m with
        | none =>
          unfold map_coordinates_to_ward
          rw [hloop]
        | some md =>
          have h30 : 30 < md := by
            refine nearestLoop_min_far dist (lat, lng) features none none hfar
              (fun m hm => absurd hm (by simp)) md ?_
            rw [hloop]
          have hstep : map_coordinates_to_ward dist features lat lng
              = if md ≤ 30 then some w else none := by
            unfold map_coordinates_to_ward
            rw [hloop]
          rw [hstep, if_neg (not_le.mpr h30)]
  · intro hhit hdist0
    obtain ⟨f, hf, hc⟩ := hhit
    obtain ⟨w, m, hres, hle⟩ := nearestLoop_hits dist (lat, lng) features
      none none (fun m0 hm0 => absurd hm0 (by simp)) f hf (lat, lng) hc
    have hstep : map_coordinates_to_ward dist features lat lng
        = if m ≤ 30 then some w else none := by
      unfold map_coordinates_to_ward
      rw [hres]
    rw [hdist0] at hle
    rw [hstep, if_pos (le_trans hle (by norm_num))]
    rfl

/-- Witness for C6: on a one-ward store with centroid (19, 72.8) and a
distance function that is 0 on equal points and 100 otherwise, a far
query maps to `none` and a query at the centroid maps to a ward. -/
theorem C6_witness :
    map_coordinates_to_ward wdist wgeo 50 50 = none ∧
    (map_coordinates_to_ward wdist wgeo 19 72.8).isSome = true := by
  have hcent : ∀ f ∈ wgeo, ∀ c, centroidOf f = some c → c = ((19 : ℚ), (72.8 : ℚ)) := by
    intro f hf c hc
    have hfeq : f = wgeo.head (by simp [wgeo]) := by
      simp only [wgeo, List.mem_singleton] at hf
      simp [hf, wgeo]
    rw [hfeq] at hc
    have : centroidOf (wgeo.head (by simp [wgeo])) = some ((19 : ℚ), (72.8 : ℚ)) := by
      show centroidOf ⟨"W01", "Ward 1",
        [[[72.7, 18.9], [72.9, 18.9], [72.9, 19.1], [72.7, 19.1]]]⟩ = _
      unfold centroidOf
      norm_num [List.filter, List.sum_cons, List.sum_nil]
      refine ⟨by simp, fun hcond => absurd (hcond (by simp)) (by simp)⟩
    rw [this] at hc
    injection hc with hc
    exact hc.symm
  constructor
  · refine (C6_nearest_ward_radius_and_centroid wdist wgeo 50 50).1 ?_
    intro f hf c hc
    rw [hcent f hf c hc]
    norm_num [wdist]
  · refine (C6_nearest_ward_radius_and_centroid wdist wgeo 19 72.8).2 ?_ ?_
    · refine ⟨wgeo.head (by simp [wgeo]), by simp [wgeo], ?_⟩
      show centroidOf ⟨"W01", "Ward 1",
        [[[72.7, 18.9], [72.9, 18.9], [72.9, 19.1], [72.7, 19.1]]]⟩ = _
      unfold centroidOf
      norm_num [List.filter, List.sum_cons, List.sum_nil]
      refine ⟨by simp, fun hcond => absurd (hcond (by simp)) (by simp)⟩
    · norm_num [wdist]

/-! ## C7 helper lemmas: inversion of `get_historical_safety_data` -/

lemma periodStatOk_period (name : String) (hours : List ℕ)
    (daily : List DayEntry) (days : ℤ) :
    (periodStatOk name hours daily days).period = name := rfl

lemma periodStatOk_dom (name : String) (hours : List ℕ)
    (daily : List DayEntry) (days : ℤ) :
    (periodStatOk name hours daily days).dominant_safety
      = (dominant_of (countLevels daily hours).1 (countLevels daily hours).2.1
          (countLevels daily hours).2.2).1 := rfl

lemma dominant_of_fst_eq_spec (g y r : ℕ) :
    (dominant_of g y r).1 = spec_dominant g y r := by
  unfold dominant_of spec_dominant
  split_ifs <;> first | rfl | (exfalso; omega)

lemma mkPeriodStat_ok_eq {name : String} {hours : List ℕ}
    {daily : List DayEntry} {days : ℤ} {st : PeriodStat}
    (h : mkPeriodStat name hours daily days = .ok st) :
    st = periodStatOk name hours daily days := by
  unfold mkPeriodStat at h
  by_cases htot : ((hours.length : ℤ) * days) = 0
  · rw [if_pos htot] at h
    exact absurd h (by simp)
  · rw [if_neg htot] at h
    injection h with h
    exact h.symm

lemma periodStatsE_ok_inv {daily : List DayEntry} {days : ℤ}
    {stats : List PeriodStat} (h : periodStatsE daily days = .ok stats) :
    stats = [periodStatOk "morning" morning_hours daily days,
             periodStatOk "afternoon" afternoon_hours daily days,
             periodStatOk "evening" evening_hours daily days,
             periodStatOk "night" night_hours daily days] := by
  unfold periodStatsE at h
  cases h1 : mkPeriodStat "morning" morning_hours daily days with
  | error e => simp only [h1] at h; exact absurd h (by simp)
  | ok a =>
    simp only [h1] at h
    cases h2 : mkPeriodStat "afternoon" afternoon_hours daily days with
    | error e => simp only [h2] at h; exact absurd h (by simp)
    | ok b =>
      simp only [h2] at h
      cases h3 : mkPeriodStat "evening" evening_hours daily days with
      | error e => simp only [h3] at h; exact absurd h (by simp)
      | ok c =>
        simp only [h3] at h
        cases h4 : mkPeriodStat "night" night_hours daily days with
        | error e => simp only [h4] at h; exact absurd h (by simp)
        | ok d =>
          simp only [h4] at h
          injection h with h
          rw [← h, mkPeriodStat_ok_eq h1, mkPeriodStat_ok_eq h2,
            mkPeriodStat_ok_eq h3, mkPeriodStat_ok_eq h4]

lemma get_historical_ok_inv {store : List (String × List DayEntry)}
    {wid : String} {days0 : ℤ} {r : HistoricalResult}
    (hres : get_historical_safety_data store wid days0 = .ok r) :
    ∃ hist, store.lookup wid = some hist ∧
      r.ward_id = wid ∧
      r.days_analyzed = min days0 30 ∧
      r.daily_data = pySliceFrom hist (-(min days0 30)) ∧
      r.period_stats =
        [periodStatOk "morning" morning_hours r.daily_data (min days0 30),
         periodStatOk "afternoon" afternoon_hours r.daily_data (min days0 30),
         periodStatOk "evening" evening_hours r.daily_data (min days0 30),
         periodStatOk "night" night_hours r.daily_data (min days0 30)] := by
  unfold get_historical_safety_data at hres
  cases hlk : store.lookup wid with
  | none => simp only [hlk] at hres; exact absurd hres (by simp)
  | some hist =>
    simp only [hlk] at hres
    cases hps : periodStatsE (pySliceFrom hist (-(min days0 30))) (min days0 30) with
    | error e => simp only [hps] at hres; exact absurd hres (by simp)
    | ok stats =>
      simp only [hps] at hres
      injection hres with hres
      subst hres
      exact ⟨hist, rfl, rfl, rfl, rfl, periodStatsE_ok_inv hps⟩

/-- C7: `get_historical_safety_data` aggregates over exactly the four
fixed periods (morning 6–11, afternoon 12–17, evening 18–21, night
22–23 and 0–5); for each period the reported dominant category is the
one with the highest count, ties broken by the preference order
green > yellow > red via the greater-or-equal comparison chain. -/
theorem C7_period_sets_and_dominant_tiebreak
    (store : List (String × List DayEntry)) (wid : String) (days0 : ℤ)
    (r : HistoricalResult) (hdays : 1 ≤ days0 ∧ days0 ≤ 30)
    (hres : get_historical_safety_data store wid days0 = .ok r) :
    time_periods = [("morning", [6, 7, 8, 9, 10, 11]),
                    ("afternoon", [12, 13, 14, 15, 16, 17]),
                    ("evening", [18, 19, 20, 21]),
                    ("night", [22, 23, 0, 1, 2, 3, 4, 5])] ∧
    r.period_stats.map (fun st => st.period)
      = ["morning", "afternoon", "evening", "night"] ∧
    (∀ st ∈ r.period_stats, ∀ hs, (st.period, hs) ∈ time_periods →
        st.dominant_safety
          = spec_dominant (countLevels r.daily_data hs).1
              (countLevels r.daily_data hs).2.1
              (countLevels r.daily_data hs).2.2) ∧
    (∀ g y rr : ℕ, (dominant_of g y rr).1 = spec_dominant g y rr) := by
  obtain ⟨hist, hlk, hward, hdaysan, hdaily, hstats⟩ := get_historical_ok_inv hres
  refine ⟨rfl, ?_, ?_, dominant_of_fst_eq_spec⟩
  · rw [hstats]
    rfl
  · intro st hst hs hmem
    rw [hstats] at hst
    simp only [List.mem_cons, List.not_mem_nil, or_false] at hst
    rcases hst with h | h | h | h <;> subst h <;>
      simp only [time_periods, periodStatOk_period, List.mem_cons,
        List.not_mem_nil, or_false, Prod.mk.injEq] at hmem <;>
      rcases hmem with ⟨hname, hhs⟩ | ⟨hname, hhs⟩ | ⟨hname, hhs⟩ | ⟨hname, hhs⟩ <;>
      first
        | exact absurd hname (by decide)
        | (subst hhs; rw [periodStatOk_dom]; exact dominant_of_fst_eq_spec _ _ _)

/-- Witness for C7 on the generated store at 7 days. -/
theorem C7_witness :
    ((1:ℤ) ≤ 7 ∧ (7:ℤ) ≤ 30) ∧
    (time_periods = [("morning", [6, 7, 8, 9, 10, 11]),
                     ("afternoon", [12, 13, 14, 15, 16, 17]),
                     ("evening", [18, 19, 20, 21]),
                     ("night", [22, 23, 0, 1, 2, 3, 4, 5])] ∧
     wr7.period_stats.map (fun st => st.period)
       = ["morning", "afternoon", "evening", "night"] ∧
     (∀ st ∈ wr7.period_stats, ∀ hs, (st.period, hs) ∈ time_periods →
         st.dominant_safety
           = spec_dominant (countLevels wr7.daily_data hs).1
               (countLevels wr7.daily_data hs).2.1
               (countLevels wr7.daily_data hs).2.2) ∧
     (∀ g y rr : ℕ, (dominant_of g y rr).1 = spec_dominant g y rr)) :=
  ⟨⟨by norm_num, by norm_num⟩,
   C7_period_sets_and_dominant_tiebreak wgen "W01" 7 wr7
     ⟨by norm_num, by norm_num⟩ rfl⟩

/-! ## C10 helper lemmas: counting invariants of the period statistics -/

lemma innerFold_triSum (hours : List ℕ) (l : List HourEntry) :
    ∀ acc : ℕ × ℕ × ℕ,
      triSum (l.foldl (fun acc hd =>
        if hd.hour ∈ hours then
          if hd.safety_level = "green" then (acc.1 + 1, acc.2.1, acc.2.2)
          else if hd.safety_level = "yellow" then (acc.1, acc.2.1 + 1, acc.2.2)
          else (acc.1, acc.2.1, acc.2.2 + 1)
        else acc) acc)
      = triSum acc + l.countP (fun hd => decide (hd.hour ∈ hours)) := by
  induction l with
  | nil => intro acc; simp
  | cons hd t ih =>
    intro acc
    rw [List.foldl_cons, ih, List.countP_cons]
    by_cases h1 : hd.hour ∈ hours <;>
      by_cases h2 : hd.safety_level = "green" <;>
      by_cases h3 : hd.safety_level = "yellow" <;>
      simp [h1, h2, h3, triSum] <;> omega

lemma outerFold_triSum (hours : List ℕ) (daily : List DayEntry) :
    ∀ acc : ℕ × ℕ × ℕ,
      triSum (daily.foldl (fun acc day =>
        day.hourly_data.foldl (fun acc hd =>
          if hd.hour ∈ hours then
            if hd.safety_level = "green" then (acc.1 + 1, acc.2.1, acc.2.2)
            else if hd.safety_level = "yellow" then (acc.1, acc.2.1 + 1, acc.2.2)
            else (acc.1, acc.2.1, acc.2.2 + 1)
          else acc) acc) acc)
      = triSum acc
        + (daily.map (fun day =>
            day.hourly_data.countP (fun hd => decide (hd.hour ∈ hours)))).sum := by
  induction daily with
  | nil => intro acc; simp
  | cons day t ih =>
    intro acc
    rw [List.foldl_cons, ih, innerFold_triSum, List.map_cons, List.sum_cons]
    omega

lemma countLevels_triSum (hours : List ℕ) (daily : List DayEntry) :
    triSum (countLevels daily hours)
      = (daily.map (fun day =>
          day.hourly_data.countP (fun hd => decide (hd.hour ∈ hours)))).sum := by
  unfold countLevels
  rw [outerFold_triSum]
  simp [triSum]

lemma countP_hours_of_range (hours : List ℕ) (day : DayEntry)
    (hday : day.hourly_data.map (fun hd => hd.hour) = List.range 24) :
    day.hourly_data.countP (fun hd => decide (hd.hour ∈ hours))
      = (List.range 24).countP (fun h => decide (h ∈ hours)) := by
  rw [← hday, List.countP_map]
  rfl

lemma countLevels_total (hours : List ℕ) (daily : List DayEntry)
    (hstruct : ∀ day ∈ daily, day.hourly_data.map (fun hd => hd.hour) = List.range 24) :
    triSum (countLevels daily hours)
      = daily.length * (List.range 24).countP (fun h => decide (h ∈ hours)) := by
  rw [countLevels_triSum]
  have hconst : ∀ x ∈ daily.map (fun day =>
      day.hourly_data.countP (fun hd => decide (hd.hour ∈ hours))),
      x = (List.range 24).countP (fun h => decide (h ∈ hours)) := by
    intro x hx
    obtain ⟨day, hday, rfl⟩ := List.mem_map.mp hx
    exact countP_hours_of_range hours day (hstruct day hday)
  rw [List.sum_eq_card_nsmul _ _ hconst, List.length_map]
  simp [Nat.smul_one_eq_cast]

lemma pySliceFrom_length_of_le {l : List α} {days : ℤ}
    (h1 : 1 ≤ days) (h30 : days ≤ 30) (hlen : l.length = 30) :
    (pySliceFrom l (-days)).length = days.toNat := by
  unfold pySliceFrom
  rw [if_pos (by omega), List.length_drop]
  omega

lemma pySliceFrom_mem {l : List α} {k : ℤ} {x : α}
    (hx : x ∈ pySliceFrom l k) : x ∈ l := by
  unfold pySliceFrom at hx
  split_ifs at hx <;> exact List.mem_of_mem_drop hx

lemma pct_sum_bound {g y r : ℕ} {T : ℤ} (hT : 0 < T)
    (hsum : ((g + y + r : ℕ) : ℤ) = T) :
    |pyround1 ((g:ℚ)/(T:ℚ)*100) + pyround1 ((y:ℚ)/(T:ℚ)*100)
      + pyround1 ((r:ℚ)/(T:ℚ)*100) - 100| ≤ 3/20 := by
  have hTQ : (0:ℚ) < (T:ℚ) := by exact_mod_cast hT
  have hx : (g:ℚ)/(T:ℚ)*100 + (y:ℚ)/(T:ℚ)*100 + (r:ℚ)/(T:ℚ)*100 = 100 := by
    have hgyr : (g:ℚ) + (y:ℚ) + (r:ℚ) = (T:ℚ) := by exact_mod_cast hsum
    field_simp
    linarith
  have bg := abs_pyround1_sub ((g:ℚ)/(T:ℚ)*100)
  have by' := abs_pyround1_sub ((y:ℚ)/(T:ℚ)*100)
  have br := abs_pyround1_sub ((r:ℚ)/(T:ℚ)*100)
  rw [abs_le] at bg by' br ⊢
  constructor <;> [linarith [bg.1, by'.1, br.1]; linarith [bg.2, by'.2, br.2]]

lemma pct_mono {T : ℤ} (hT : 0 < T) {a b : ℕ} (hab : a ≤ b) :
    pyround1 ((a:ℚ)/(T:ℚ)*100) ≤ pyround1 ((b:ℚ)/(T:ℚ)*100) := by
  have hTQ : (0:ℚ) < (T:ℚ) := by exact_mod_cast hT
  apply pyround1_mono
  have hdiv : (a:ℚ)/(T:ℚ) ≤ (b:ℚ)/(T:ℚ) :=
    (div_le_div_iff_of_pos_right hTQ).mpr (by exact_mod_cast hab)
  nlinarith

lemma dominant_of_snd_eq_max (g y r : ℕ) :
    (dominant_of g y r).2 = max g (max y r) := by
  unfold dominant_of
  split_ifs <;> simp <;> omega

lemma dominant_pct_is_max {g y r : ℕ} {T : ℤ} (hT : 0 < T) :
    pyround1 (((dominant_of g y r).2 : ℚ)/(T:ℚ)*100)
      = max (pyround1 ((g:ℚ)/(T:ℚ)*100))
          (max (pyround1 ((y:ℚ)/(T:ℚ)*100)) (pyround1 ((r:ℚ)/(T:ℚ)*100))) := by
  rw [dominant_of_snd_eq_max]
  rcases le_total y r with h2 | h2
  · rw [max_eq_right h2, max_eq_right (pct_mono hT h2)]
    rcases le_total g r with h1 | h1
    · rw [max_eq_right h1, max_eq_right (pct_mono hT h1)]
    · rw [max_eq_left h1, max_eq_left (pct_mono hT h1)]
  · rw [max_eq_left h2, max_eq_left (pct_mono hT h2)]
    rcases le_total g y with h1 | h1
    · rw [max_eq_right h1, max_eq_right (pct_mono hT h1)]
    · rw [max_eq_left h1, max_eq_left (pct_mono hT h1)]

lemma periodStatOk_green (name : String) (hours : List ℕ)
    (daily : List DayEntry) (days : ℤ) :
    (periodStatOk name hours daily days).green_pct
      = pyround1 (((countLevels daily hours).1 : ℚ)
          / (((hours.length : ℤ) * days : ℤ) : ℚ) * 100) := rfl

lemma periodStatOk_yellow (name : String) (hours : List ℕ)
    (daily : List DayEntry) (days : ℤ) :
    (periodStatOk name hours daily days).yellow_pct
      = pyround1 (((countLevels daily hours).2.1 : ℚ)
          / (((hours.length : ℤ) * days : ℤ) : ℚ) * 100) := rfl

lemma periodStatOk_red (name : String) (hours : List ℕ)
    (daily : List DayEntry) (days : ℤ) :
    (periodStatOk name hours daily days).red_pct
      = pyround1 (((countLevels daily hours).2.2 : ℚ)
          / (((hours.length : ℤ) * days : ℤ) : ℚ) * 100) := rfl

lemma periodStatOk_dompct (name : String) (hours : List ℕ)
    (daily : List DayEntry) (days : ℤ) :
    (periodStatOk name hours daily days).dominant_percentage
      = pyround1 (((dominant_of (countLevels daily hours).1
            (countLevels daily hours).2.1 (countLevels daily hours).2.2).2 : ℚ)
          / (((hours.length : ℤ) * days : ℤ) : ℚ) * 100) := rfl

lemma periodStatOk_props (name : String) (hours : List ℕ)
    (daily : List DayEntry) (days : ℤ)
    (hT : 0 < (hours.length : ℤ) * days)
    (hsum : ((triSum (countLevels daily hours) : ℕ) : ℤ)
        = (hours.length : ℤ) * days) :
    |(periodStatOk name hours daily days).green_pct
        + (periodStatOk name hours daily days).yellow_pct
        + (periodStatOk name hours daily days).red_pct - 100| ≤ 3/20 ∧
    (periodStatOk name hours daily days).dominant_percentage
      = max (periodStatOk name hours daily days).green_pct
          (max (periodStatOk name hours daily days).yellow_pct
            (periodStatOk name hours daily days).red_pct) := by
  rw [periodStatOk_green, periodStatOk_yellow, periodStatOk_red,
    periodStatOk_dompct]
  exact ⟨pct_sum_bound hT hsum, dominant_pct_is_max hT⟩

/-- C10: for a ward whose stored series has 30 days of 24-hour records
(as the startup generator produces) and `1 ≤ days ≤ 30`, each period's
green, yellow and red counts sum to `(hours in period) × days`, the three
rounded percentages sum to 100 up to the per-term rounding of 1/20 each,
and `dominant_percentage` is the largest of the three percentages. -/
theorem C10_period_stats_consistency
    (store : List (String × List DayEntry)) (wid : String) (days0 : ℤ)
    (hist : List DayEntry) (r : HistoricalResult)
    (hw : store.lookup wid = some hist) (hlen : hist.length = 30)
    (hstruct : ∀ day ∈ hist,
        day.hourly_data.map (fun hd => hd.hour) = List.range 24)
    (hd1 : 1 ≤ days0) (hd2 : days0 ≤ 30)
    (hres : get_historical_safety_data store wid days0 = .ok r) :
    ∀ st ∈ r.period_stats, ∀ hs, (st.period, hs) ∈ time_periods →
      ((triSum (countLevels r.daily_data hs) : ℤ) = (hs.length : ℤ) * days0 ∧
       |st.green_pct + st.yellow_pct + st.red_pct - 100| ≤ 3/20 ∧
       st.dominant_percentage
         = max st.green_pct (max st.yellow_pct st.red_pct)) := by
  obtain ⟨hist', hlk', hward, hdaysan, hdaily, hstats⟩ := get_historical_ok_inv hres
  have hhist : hist' = hist := by
    rw [hw] at hlk'
    injection hlk' with hlk'
    exact hlk'.symm
  subst hhist
  have hmin : min days0 30 = days0 := min_eq_left hd2
  rw [hmin] at hdaily hstats
  have hdlen : r.daily_data.length = days0.toNat := by
    rw [hdaily]
    exact pySliceFrom_length_of_le hd1 hd2 hlen
  have hdstruct : ∀ day ∈ r.daily_data,
      day.hourly_data.map (fun hd => hd.hour) = List.range 24 := by
    intro day hday
    rw [hdaily] at hday
    exact hstruct day (pySliceFrom_mem hday)
  have key : ∀ hs : List ℕ,
      hs.length = (List.range 24).countP (fun h => decide (h ∈ hs)) →
      (triSum (countLevels r.daily_data hs) : ℤ) = (hs.length : ℤ) * days0 := by
    intro hs hcount
    rw [countLevels_total hs r.daily_data hdstruct, hdlen, ← hcount]
    push_cast
    rw [Int.toNat_of_nonneg (by omega)]
    ring
  intro st hst hs hmem
  rw [hstats] at hst
  simp only [List.mem_cons, List.not_mem_nil, or_false] at hst
  rcases hst with h | h | h | h <;> subst h <;>
    simp only [time_periods, periodStatOk_period, List.mem_cons,
      List.not_mem_nil, or_false, Prod.mk.injEq] at hmem <;>
    rcases hmem with ⟨hname, hhs⟩ | ⟨hname, hhs⟩ | ⟨hname, hhs⟩ | ⟨hname, hhs⟩ <;>
    first
      | exact absurd hname (by decide)
      | (subst hhs
         refine ⟨key _ (by decide), ?_⟩
         refine periodStatOk_props _ _ r.daily_data days0 ?_ ?_
         · simp only [morning_hours, afternoon_hours, evening_hours,
             night_hours, List.length_cons, List.length_nil]
           omega
         · exact key _ (by decide))

/-- Witness for C10: the morning-period entry of the generated store's
7-day statistics. -/
theorem C10_witness :
    (triSum (countLevels wr7.daily_data morning_hours) : ℤ)
        = (morning_hours.length : ℤ) * 7 ∧
    |wstM.green_pct + wstM.yellow_pct + wstM.red_pct - 100| ≤ 3/20 ∧
    wstM.dominant_percentage
      = max wstM.green_pct (max wstM.yellow_pct wstM.red_pct) :=
  C10_period_stats_consistency wgen "W01" 7 wgenHist wr7 rfl
    (by simp [wgenHist])
    (by
      intro day hday
      simp only [wgenHist, List.mem_map] at hday
      obtain ⟨i, _, rfl⟩ := hday
      show ((List.range 24).map (genHourEntry whash "W01" 3)).map
        (fun hd => hd.hour) = List.range 24
      rw [List.map_map]
      have hcomp : ((fun hd : HourEntry => hd.hour)
          ∘ genHourEntry whash "W01" 3) = fun h => h := rfl
      rw [hcomp]
      exact List.map_id _)
    (by norm_num) (by norm_num) rfl wstM
    (by
      show wstM ∈ [periodStatOk "morning" morning_hours wr7.daily_data 7,
                   periodStatOk "afternoon" afternoon_hours wr7.daily_data 7,
                   periodStatOk "evening" evening_hours wr7.daily_data 7,
                   periodStatOk "night" night_hours wr7.daily_data 7]
      exact List.mem_cons_self _ _)
    morning_hours
    (by
      show ("morning", morning_hours) ∈ time_periods
      exact List.mem_cons_self _ _)

/-! ## C8 helper lemmas -/

lemma mem_foldl_append {α β : Type} (g : β → List α) (l : List β) :
    ∀ (init : List α) (a : α), a ∈ init →
      a ∈ l.foldl (fun acc f => acc ++ g f) init := by
  induction l with
  | nil => intro init a ha; simpa using ha
  | cons f t ih =>
    intro init a ha
    rw [List.foldl_cons]
    exact ih _ a (List.mem_append_left _ ha)

lemma level_tips_ne_nil (s : ℚ) : level_tips (safety_level_of s) ≠ [] := by
  unfold safety_level_of
  split_ifs <;> decide

lemma tips_of_ok {res : PredictResult} {wid : String} {wd : WardPrediction}
    (hour : ℤ) (hfq : res.wards.find? (fun w => w.ward_id == wid) = some wd) :
    tips_of (.ok res) wid hour = .ok
      { ward_id := wid
        ward_name := wd.name
        safety_level := wd.safety_level
        general_tips := general_tips
        specific_tips := wd.risk_factors.foldl
          (fun acc f => acc ++ factor_tips f) (level_tips wd.safety_level)
        time_tips := time_tips_of hour } := by
  unfold tips_of
  simp only [hfq]

/-- C8: for every ward id known to the store, `get_safety_tips` succeeds
and returns the four fixed general tips verbatim, and its specific tips
contain at least one tip drawn from the category-level pool of the
ward's current safety category (which is non-empty). -/
theorem C8_tips_include_general_and_level (h : String → Int)
    (sinq : ℤ → ℚ) (sample : String → ℤ → List String)
    (features : List WardFeature) (wid : String) (hour : ℤ)
    (hfind : ∃ f ∈ features, f.ward_id = wid) :
    ∃ r, get_safety_tips h sinq sample features wid hour = .ok r ∧
      r.general_tips =
        ["Stay aware of your surroundings at all times",
         "Keep emergency contacts readily available",
         "Share your location with trusted contacts when traveling",
         "Stay in well-lit and populated areas when possible"] ∧
      level_tips r.safety_level ≠ [] ∧
      ∃ t, t ∈ r.specific_tips ∧ t ∈ level_tips r.safety_level := by
  have hne : features ≠ [] := by
    rintro rfl
    obtain ⟨f, hf, _⟩ := hfind
    exact absurd hf (List.not_mem_nil f)
  have hpred : predict h sinq sample features hour
      = .ok ⟨hour, features.map (predictWard h sinq sample hour)⟩ := by
    unfold predict
    rw [if_neg hne]
  cases hfq : (features.map (predictWard h sinq sample hour)).find?
      (fun w => w.ward_id == wid) with
  | none =>
    exfalso
    obtain ⟨f, hf, hid⟩ := hfind
    have hmemw : predictWard h sinq sample hour f
        ∈ features.map (predictWard h sinq sample hour) :=
      List.mem_map_of_mem _ hf
    have := List.find?_eq_none.mp hfq _ hmemw
    apply this
    have hwid : (predictWard h sinq sample hour f).ward_id = f.ward_id := rfl
    rw [hwid, hid]
    exact beq_self_eq_true wid
  | some wd =>
    obtain ⟨f0, hf0, rfl⟩ := List.mem_map.mp (List.mem_of_find?_eq_some hfq)
    have hres : get_safety_tips h sinq sample features wid hour = .ok
        { ward_id := wid
          ward_name := (predictWard h sinq sample hour f0).name
          safety_level := (predictWard h sinq sample hour f0).safety_level
          general_tips := general_tips
          specific_tips := (predictWard h sinq sample hour f0).risk_factors.foldl
            (fun acc f => acc ++ factor_tips f)
            (level_tips (predictWard h sinq sample hour f0).safety_level)
          time_tips := time_tips_of hour } := by
      unfold get_safety_tips
      rw [hpred]
      exact tips_of_ok hour hfq
    have hlvl : (predictWard h sinq sample hour f0).safety_level
        = safety_level_of (safety_score h sinq hour f0.ward_id) := rfl
    have hlne : level_tips (predictWard h sinq sample hour f0).safety_level ≠ [] := by
      rw [hlvl]
      exact level_tips_ne_nil _
    obtain ⟨t, ht⟩ := List.exists_mem_of_ne_nil _ hlne
    exact ⟨_, hres, rfl, hlne,
      ⟨t, mem_foldl_append factor_tips _ _ t ht, ht⟩⟩

/-- Witness for C8 at hour 12 on the one-ward store. -/
theorem C8_witness :
    ∃ r, get_safety_tips whash wsin wsample wfeatures "W01" 12 = .ok r ∧
      r.general_tips =
        ["Stay aware of your surroundings at all times",
         "Keep emergency contacts readily available",
         "Share your location with trusted contacts when traveling",
         "Stay in well-lit and populated areas when possible"] ∧
      level_tips r.safety_level ≠ [] ∧
      ∃ t, t ∈ r.specific_tips ∧ t ∈ level_tips r.safety_level :=
  C8_tips_include_general_and_level whash wsin wsample wfeatures "W01" 12
    ⟨⟨"W01", "Ward 1"⟩, by decide, rfl⟩

/-- C9: none of the four public operations mutates the ward collection
or the historical series: the state after each call has the same
`features` and `historical` fields as before (only the lazily-set
`model` flag of `predict` can change). -/
theorem C9_public_ops_preserve_store (h : String → Int) (sinq : ℤ → ℚ)
    (sample : String → ℤ → List String) (hourAt : ℕ → ℤ) (cls : ℕ → ℕ)
    (pr : ℕ → ℚ) (st : PredictorState) (hour days0 : ℤ) (wid : String)
    (fh : ℕ) :
    ((predictOp h sinq sample st hour).2.features = st.features ∧
     (predictOp h sinq sample st hour).2.historical = st.historical) ∧
    ((get_historicalOp st wid days0).2.features = st.features ∧
     (get_historicalOp st wid days0).2.historical = st.historical) ∧
    ((predict_future_riskOp hourAt cls pr sample st wid fh).2.features = st.features ∧
     (predict_future_riskOp hourAt cls pr sample st wid fh).2.historical = st.historical) ∧
    ((get_safety_tipsOp h sinq sample st wid hour).2.features = st.features ∧
     (get_safety_tipsOp h sinq sample st wid hour).2.historical = st.historical) := by
  have hpred : (predictOp h sinq sample st hour).2.features = st.features ∧
      (predictOp h sinq sample st hour).2.historical = st.historical := by
    by_cases hm : st.model <;> simp [predictOp, hm]
  have hfut : (predict_future_riskOp hourAt cls pr sample st wid fh).2 = st := by
    unfold predict_future_riskOp
    split_ifs with hc
    · rfl
    · cases st.features.find? (fun f => f.ward_id == wid) <;> rfl
  refine ⟨hpred, ⟨rfl, rfl⟩, ?_, ?_⟩
  · rw [hfut]
    exact ⟨rfl, rfl⟩
  · exact hpred

/-- C5: when the external geocoding call raises, `map_search_query_to_ward`
does not treat the query as not found: with a non-empty ward store it
returns a fabricated match — a `random.choice` ward with
`random.uniform`-generated coordinates near the city center — instead of
`none`.  (The code's own comment says production behaviour would return
`None`.) -/
theorem C5_geocode_failure_returns_fabricated_ward :
    map_search_query_to_ward wdist wgeo (fun _ => .failure) 0
        2.5 0.01 0.01 0.005 0.005 "Dadar"
      = some { ward_id := "W01", name := "Ward 1",
               distance_km := pyround2 2.5,
               latitude := mumbai_center.1 + 0.01,
               longitude := mumbai_center.2 + 0.01,
               search_query := "Dadar, Mumbai, India",
               matched_location := "Near Ward 1, Mumbai, India",
               search_lat := mumbai_center.1 + 0.005,
               search_lng := mumbai_center.2 + 0.005 } := rfl

end RapidPSv
